import Mathlib

/-!
Verification of the chat controller in src/server/src/controller/Controller.js.

The controller is embedded shallowly: timestamps are milliseconds since the
Unix epoch (`Nat`), the DAO-owned database is an explicit `ChatStore` value,
and every controller operation is a pure function from a store (plus the
wall-clock reading taken during the call) to a result, an updated store, and
the list of DAO calls it issued.  The DAO, the Validators helpers and the two
DTO shapes are repository code that is not part of the controller file; they
are modelled from the specification, as marked on each definition.
-/

deriving instance DecidableEq for Except

/-- Timestamps: milliseconds since the Unix epoch, as produced by JS
`Date.valueOf()` / `moment().valueOf()`. -/
abbrev Millis := Nat

/-- Modelled from the spec: the User data-transfer object (spec section 3):
a unique username and a `loggedInUntil` timestamp, nullable/absent meaning
never logged in. -/
structure UserDTO where
  username : String
  loggedInUntil : Option Millis
deriving Repr, DecidableEq

/-- Modelled from the spec: the Message data-transfer object (spec section 3):
a positive integer id assigned by the store, a non-empty body text, and an
authoring User reference. -/
structure MsgDTO where
  id : Nat
  msg : String
  author : UserDTO
deriving Repr, DecidableEq

/-! ## moment.js semantics used by `isLoggedIn`

`moment(x)` never returns the JS value `null`: it returns a moment object,
which is either a valid instant or the invalid moment (`moment(null)` yields
the invalid moment).  `isBefore` involving an invalid moment returns false. -/

/-- A moment.js object: a valid instant or the invalid moment. -/
inductive MomentVal where
  | valid (ms : Millis)
  | invalid
deriving Repr, DecidableEq

/-- `moment(loggedInUntil)` on the stored field: a Date value maps to its
instant, a stored null maps to the invalid moment. -/
def momentOf : Option Millis → MomentVal
  | some t => MomentVal.valid t
  | none => MomentVal.invalid

/-- The `loginExpires === null` test of Controller.js line 73: `moment()`
returns an object, never null, so the strict-equality test is always false. -/
def momentIsNull (_ : MomentVal) : Bool := false

/-- `loginExpires.isBefore(now)` where `now` is the valid moment of the current
instant: strict comparison of instants; false whenever `loginExpires` is the
invalid moment. -/
def momentIsBefore : MomentVal → Millis → Bool
  | MomentVal.invalid, _ => false
  | MomentVal.valid a, n => decide (a < n)

/-! ## The DAO-owned store (modelled from the spec) -/

/-- Modelled from the spec: the persistent state owned by the ChatDAO
(spec sections 3 and 6): the stored users, the stored messages, and the next
message id the store will assign.  Message ids are positive integers assigned
by the store, so `nextMsgId` starts at 1. -/
structure ChatStore where
  users : List UserDTO
  msgs : List MsgDTO
  nextMsgId : Nat
deriving Repr, DecidableEq

/-- The store before any user or message exists. -/
def emptyStore : ChatStore := ⟨[], [], 1⟩

/-- Well-formedness maintained by the store: ids are positive and every stored
message has an id below the next id to be assigned (ids are store-assigned,
spec section 3). -/
def StoreWF (s : ChatStore) : Prop :=
  1 ≤ s.nextMsgId ∧ ∀ m ∈ s.msgs, m.id < s.nextMsgId

instance (s : ChatStore) : Decidable (StoreWF s) := by
  unfold StoreWF; infer_instance

namespace ChatDAO

/-- Modelled from the spec: `findUserByUsername(username) -> list of User`
(spec section 6): the stored users with the given username. -/
def findUserByUsername (s : ChatStore) (username : String) : List UserDTO :=
  s.users.filter (fun u => u.username == username)

/-- Modelled from the spec: `updateUser(user)` persists the updated user
(spec sections 4.1 and 6): the stored user with the same username is replaced
by the given one. -/
def updateUser (s : ChatStore) (u : UserDTO) : ChatStore :=
  { s with users := s.users.map (fun v => if v.username == u.username then u else v) }

/-- Modelled from the spec: `createMsg(text, author) -> Message`
(spec section 6): the store assigns the id (spec section 3) and stores the new
message; insertion order is kept. -/
def createMsg (s : ChatStore) (text : String) (author : UserDTO) :
    MsgDTO × ChatStore :=
  let m : MsgDTO := ⟨s.nextMsgId, text, author⟩
  (m, { s with msgs := s.msgs ++ [m], nextMsgId := s.nextMsgId + 1 })

/-- Modelled from the spec: `findMsgById(id) -> Message | null`
(spec section 6). -/
def findMsgById (s : ChatStore) (msgId : Int) : Option MsgDTO :=
  s.msgs.find? (fun m => (m.id : Int) == msgId)

/-- Modelled from the spec: `findAllMsgs() -> list of Message`
(spec section 6), in insertion order (spec section 4.1). -/
def findAllMsgs (s : ChatStore) : List MsgDTO := s.msgs

/-- Modelled from the spec: `deleteMsg(id)`: deletes if present, no explicit
error if absent (spec sections 4.1 and 6). -/
def deleteMsg (s : ChatStore) (msgId : Int) : ChatStore :=
  { s with msgs := s.msgs.filter (fun m => (m.id : Int) != msgId) }

end ChatDAO

/-! ## Validators (modelled from the spec) and errors -/

/-- The validation failure raised by the Validators helpers before any I/O
(spec section 7); carries the name of the offending parameter. -/
inductive ChatError where
  | validationError (param : String)
deriving Repr, DecidableEq

namespace Validators

/-- Modelled from the spec: `Validators.isNonZeroLengthString` accepts exactly
the non-empty strings (spec sections 4.1 and 7). -/
def isNonZeroLengthString (s : String) : Bool := s.length != 0

/-- Modelled from the spec: `Validators.isAlnumString` accepts exactly the
alphanumeric strings (spec sections 3 and 7): every character of the string
is alphanumeric. -/
def isAlnumString (s : String) : Bool := s.data.all Char.isAlphanum

/-- Modelled from the spec: `Validators.isPositiveInteger` accepts exactly the
positive integers (spec sections 4.1 and 7). -/
def isPositiveInteger (n : Int) : Bool := decide (0 < n)

end Validators

/-- The runtime value a caller passes as the `author` argument of `addMsg`:
either an actual UserDTO instance or some other value, which the Validators
instanceof check (`isInstanceOf`, modelled from the spec, sections 3 and 7)
rejects. -/
inductive AuthorArg where
  | user (u : UserDTO)
  | nonUser
deriving Repr, DecidableEq

/-- A call issued to the ChatDAO, recorded in order by every controller
operation. -/
inductive DAOCall where
  | findUserByUsername (username : String)
  | updateUser (u : UserDTO)
  | createMsg (text : String) (author : UserDTO)
  | findMsgById (msgId : Int)
  | findAllMsgs
  | deleteMsg (msgId : Int)
deriving Repr, DecidableEq

/-- Whether a DAO call writes to the store. -/
def DAOCall.isMutating : DAOCall → Bool
  | DAOCall.updateUser _ => true
  | DAOCall.createMsg _ _ => true
  | DAOCall.deleteMsg _ => true
  | _ => false

namespace Controller

/-- Controller.js lines 136-140, `setUsersStatusToLoggedIn(user)`:
sets the user's `loggedInUntil` to `new Date(moment() + duration(24 hours))`,
i.e. the current instant plus 86400000 ms, and persists it via
`chatDAO.updateUser`.  Takes the wall-clock reading `now` of the `moment()`
call as a parameter. -/
def setUsersStatusToLoggedIn (s : ChatStore) (now : Millis) (user : UserDTO) :
    UserDTO × ChatStore × List DAOCall :=
  let periodToStayLoggedIn : Millis := 24 * 60 * 60 * 1000
  let user' : UserDTO := { user with loggedInUntil := some (now + periodToStayLoggedIn) }
  (user', ChatDAO.updateUser s user', [DAOCall.updateUser user'])

/-- Controller.js lines 42-52, `login(username)`: validates the username,
looks the user up, returns null when the list is empty, otherwise extends the
found user's login expiry and returns that (mutated) user. -/
def login (s : ChatStore) (now : Millis) (username : String) :
    Except ChatError (Option UserDTO) × ChatStore × List DAOCall :=
  if !Validators.isNonZeroLengthString username then
    (Except.error (ChatError.validationError "username"), s, [])
  else if !Validators.isAlnumString username then
    (Except.error (ChatError.validationError "username"), s, [])
  else
    match ChatDAO.findUserByUsername s username with
    | [] => (Except.ok none, s, [DAOCall.findUserByUsername username])
    | u :: _ =>
      let r := setUsersStatusToLoggedIn s now u
      (Except.ok (some r.1), r.2.1, DAOCall.findUserByUsername username :: r.2.2)

/-- Controller.js lines 64-81, `isLoggedIn(username)`: validates the username,
looks the user up, returns null when the list is empty; otherwise builds
`loginExpires = moment(loggedInUntil)`, runs the (dead) `=== null` test, then
returns null when `loginExpires.isBefore(now)` and the user otherwise. -/
def isLoggedIn (s : ChatStore) (now : Millis) (username : String) :
    Except ChatError (Option UserDTO) × ChatStore × List DAOCall :=
  if !Validators.isNonZeroLengthString username then
    (Except.error (ChatError.validationError "username"), s, [])
  else if !Validators.isAlnumString username then
    (Except.error (ChatError.validationError "username"), s, [])
  else
    match ChatDAO.findUserByUsername s username with
    | [] => (Except.ok none, s, [DAOCall.findUserByUsername username])
    | u :: _ =>
      let loginExpires := momentOf u.loggedInUntil
      if momentIsNull loginExpires then
        (Except.ok none, s, [DAOCall.findUserByUsername username])
      else if momentIsBefore loginExpires now then
        (Except.ok none, s, [DAOCall.findUserByUsername username])
      else
        (Except.ok (some u), s, [DAOCall.findUserByUsername username])

/-- Controller.js lines 91-95, `addMsg(msg, author)`: validates the text and
the author's shape, then delegates creation to the DAO and returns the created
message. -/
def addMsg (s : ChatStore) (msg : String) (author : AuthorArg) :
    Except ChatError MsgDTO × ChatStore × List DAOCall :=
  if !Validators.isNonZeroLengthString msg then
    (Except.error (ChatError.validationError "msg"), s, [])
  else
    match author with
    | AuthorArg.nonUser => (Except.error (ChatError.validationError "user"), s, [])
    | AuthorArg.user a =>
      let r := ChatDAO.createMsg s msg a
      (Except.ok r.1, r.2, [DAOCall.createMsg msg a])

/-- Controller.js lines 105-108, `findMsg(msgId)`: validates the id, then
returns the DAO lookup result. -/
def findMsg (s : ChatStore) (msgId : Int) :
    Except ChatError (Option MsgDTO) × ChatStore × List DAOCall :=
  if !Validators.isPositiveInteger msgId then
    (Except.error (ChatError.validationError "msgId"), s, [])
  else
    (Except.ok (ChatDAO.findMsgById s msgId), s, [DAOCall.findMsgById msgId])

/-- Controller.js lines 117-119, `findAllMsgs()`: returns all messages. -/
def findAllMsgs (s : ChatStore) :
    Except ChatError (List MsgDTO) × ChatStore × List DAOCall :=
  (Except.ok (ChatDAO.findAllMsgs s), s, [DAOCall.findAllMsgs])

/-- Controller.js lines 127-130, `deleteMsg(msgId)`: validates the id, then
delegates deletion to the DAO. -/
def deleteMsg (s : ChatStore) (msgId : Int) :
    Except ChatError Unit × ChatStore × List DAOCall :=
  if !Validators.isPositiveInteger msgId then
    (Except.error (ChatError.validationError "msgId"), s, [])
  else
    (Except.ok (), ChatDAO.deleteMsg s msgId, [DAOCall.deleteMsg msgId])

end Controller

/-- Running a sequence of `addMsg` calls, threading the store. -/
def addMsgs (s : ChatStore) : List (String × UserDTO) → ChatStore
  | [] => s
  | p :: rest => addMsgs (Controller.addMsg s p.1 (AuthorArg.user p.2)).2.1 rest

/-- A concrete user used in witnesses and counterexamples. -/
def aliceAt (t : Option Millis) : UserDTO := ⟨"alice", t⟩

/-- A concrete one-user store used in witnesses and counterexamples. -/
def storeWithAlice (t : Option Millis) : ChatStore := ⟨[aliceAt t], [], 1⟩

/-! ## Claims -/

/-- C1 counterexample: at the exact expiry instant (`loggedInUntil` equal to
the current time) the claim says `isLoggedIn` returns null, but the code's
`isBefore` test is strict, so the user is returned. -/
theorem isLoggedIn_at_expiry_counterexample :
    ¬ (Controller.isLoggedIn (storeWithAlice (some 1000)) 1000 "alice").1 =
      Except.ok none := by decide

/-- C1 (amended): for an existing user with an expiry set, `isLoggedIn`
returns the user iff `loggedInUntil` is not strictly before the current time
(so also at the exact expiry instant), and null iff `loggedInUntil` is
strictly before the current time. -/
theorem isLoggedIn_expiry_boundary (s : ChatStore) (now : Millis)
    (username : String) (u : UserDTO) (rest : List UserDTO) (t : Millis)
    (h1 : Validators.isNonZeroLengthString username = true)
    (h2 : Validators.isAlnumString username = true)
    (hfind : ChatDAO.findUserByUsername s username = u :: rest)
    (ht : u.loggedInUntil = some t) :
    (Controller.isLoggedIn s now username).1 =
      Except.ok (if t < now then none else some u) := by
  simp only [Controller.isLoggedIn, h1, h2, hfind, ht, momentOf, momentIsNull,
    momentIsBefore, Bool.not_true, Bool.false_eq_true, if_false,
    Bool.false_eq_true]
  split <;> rename_i hdec <;> simp_all

/-- C1 witness. -/
theorem isLoggedIn_expiry_boundary_witness :
    (Controller.isLoggedIn (storeWithAlice (some 5)) 3 "alice").1 =
      Except.ok (if (5 : Millis) < 3 then none else some (aliceAt (some 5))) :=
  isLoggedIn_expiry_boundary (storeWithAlice (some 5)) 3 "alice"
    (aliceAt (some 5)) [] 5 (by decide) (by decide) (by decide) (by decide)

/-- C2: for a stored user whose `loggedInUntil` is absent (null), the code
returns the user, not null: `moment(null)` is the invalid moment, the
`=== null` guard compares an object to null and never fires, and `isBefore`
on an invalid moment is false.  This contradicts the method's own
documentation ("Null if the user is not logged in") and the spec. -/
theorem isLoggedIn_absent_expiry_returns_user :
    (Controller.isLoggedIn (storeWithAlice none) 1000 "alice").1 =
      Except.ok (some (aliceAt none)) := by decide

/-- C4: for a valid username with no matching user in the store, both `login`
and `isLoggedIn` return a successful null result, not an error. -/
theorem login_isLoggedIn_absent_user (s : ChatStore) (now : Millis)
    (username : String)
    (h1 : Validators.isNonZeroLengthString username = true)
    (h2 : Validators.isAlnumString username = true)
    (habs : ∀ u ∈ s.users, u.username ≠ username) :
    (Controller.login s now username).1 = Except.ok none ∧
    (Controller.isLoggedIn s now username).1 = Except.ok none := by
  have hfind : ChatDAO.findUserByUsername s username = [] := by
    refine List.filter_eq_nil_iff.mpr ?_
    intro u hu
    simpa using habs u hu
  constructor
  · simp only [Controller.login, h1, h2, hfind, Bool.not_true,
      Bool.false_eq_true, if_false]
  · simp only [Controller.isLoggedIn, h1, h2, hfind, Bool.not_true,
      Bool.false_eq_true, if_false]

/-- C4 witness. -/
theorem login_isLoggedIn_absent_user_witness :
    (Controller.login (storeWithAlice none) 7 "bob").1 = Except.ok none ∧
    (Controller.isLoggedIn (storeWithAlice none) 7 "bob").1 = Except.ok none :=
  login_isLoggedIn_absent_user (storeWithAlice none) 7 "bob"
    (by decide) (by decide) (by decide)

/-- C9: `isLoggedIn` performs no writes: the store after the call equals the
store before it, and no DAO call it issues is a mutating one. -/
theorem isLoggedIn_read_only (s : ChatStore) (now : Millis) (username : String)
    (h1 : Validators.isNonZeroLengthString username = true)
    (h2 : Validators.isAlnumString username = true) :
    (Controller.isLoggedIn s now username).2.1 = s ∧
    ∀ c ∈ (Controller.isLoggedIn s now username).2.2, c.isMutating = false := by
  simp only [Controller.isLoggedIn, h1, h2, Bool.not_true, Bool.false_eq_true,
    if_false]
  split
  · simp [DAOCall.isMutating]
  · split
    · simp [DAOCall.isMutating]
    · split <;> simp [DAOCall.isMutating]

/-- C9 witness. -/
theorem isLoggedIn_read_only_witness :
    (Controller.isLoggedIn (storeWithAlice (some 5)) 3 "alice").2.1 =
      storeWithAlice (some 5) ∧
    ∀ c ∈ (Controller.isLoggedIn (storeWithAlice (some 5)) 3 "alice").2.2,
      c.isMutating = false :=
  isLoggedIn_read_only (storeWithAlice (some 5)) 3 "alice"
    (by decide) (by decide)

/-- C10: for a valid username with no matching user in the store, `login`
returns null, leaves the store unchanged, and issues only the (read-only)
user lookup to the DAO. -/
theorem login_absent_user_no_write (s : ChatStore) (now : Millis)
    (username : String)
    (h1 : Validators.isNonZeroLengthString username = true)
    (h2 : Validators.isAlnumString username = true)
    (habs : ∀ u ∈ s.users, u.username ≠ username) :
    Controller.login s now username =
      (Except.ok none, s, [DAOCall.findUserByUsername username]) := by
  have hfind : ChatDAO.findUserByUsername s username = [] := by
    refine List.filter_eq_nil_iff.mpr ?_
    intro u hu
    simpa using habs u hu
  simp only [Controller.login, h1, h2, hfind, Bool.not_true,
    Bool.false_eq_true, if_false]

/-- C10 witness. -/
theorem login_absent_user_no_write_witness :
    Controller.login (storeWithAlice none) 7 "bob" =
      (Except.ok none, storeWithAlice none,
        [DAOCall.findUserByUsername "bob"]) :=
  login_absent_user_no_write (storeWithAlice none) 7 "bob"
    (by decide) (by decide) (by decide)

/-- C3: for an existing username, `login` returns the found user with
`loggedInUntil` set to exactly now + 24 hours (so at least now + 24 hours),
and persists exactly that updated user through the DAO's `updateUser`. -/
theorem login_extends_expiry (s : ChatStore) (now : Millis) (username : String)
    (u : UserDTO) (rest : List UserDTO)
    (h1 : Validators.isNonZeroLengthString username = true)
    (h2 : Validators.isAlnumString username = true)
    (hfind : ChatDAO.findUserByUsername s username = u :: rest) :
    ∃ u', (Controller.login s now username).1 = Except.ok (some u') ∧
      u'.loggedInUntil = some (now + 24 * 60 * 60 * 1000) ∧
      (∀ t, u'.loggedInUntil = some t → now + 24 * 60 * 60 * 1000 ≤ t) ∧
      (Controller.login s now username).2.1 = ChatDAO.updateUser s u' ∧
      DAOCall.updateUser u' ∈ (Controller.login s now username).2.2 := by
  refine ⟨{ u with loggedInUntil := some (now + 24 * 60 * 60 * 1000) },
    ?_, rfl, ?_, ?_, ?_⟩
  · simp [Controller.login, Controller.setUsersStatusToLoggedIn, h1, h2, hfind]
  · intro t ht
    exact Nat.le_of_eq (Option.some.inj ht)
  · simp [Controller.login, Controller.setUsersStatusToLoggedIn, h1, h2, hfind]
  · simp [Controller.login, Controller.setUsersStatusToLoggedIn, h1, h2, hfind]

/-- C3 witness. -/
theorem login_extends_expiry_witness :
    ∃ u', (Controller.login (storeWithAlice (some 0)) 7 "alice").1 =
        Except.ok (some u') ∧
      u'.loggedInUntil = some (7 + 24 * 60 * 60 * 1000) ∧
      (∀ t, u'.loggedInUntil = some t → 7 + 24 * 60 * 60 * 1000 ≤ t) ∧
      (Controller.login (storeWithAlice (some 0)) 7 "alice").2.1 =
        ChatDAO.updateUser (storeWithAlice (some 0)) u' ∧
      DAOCall.updateUser u' ∈
        (Controller.login (storeWithAlice (some 0)) 7 "alice").2.2 :=
  login_extends_expiry (storeWithAlice (some 0)) 7 "alice" (aliceAt (some 0))
    [] (by decide) (by decide) (by decide)

/-- C5: each kind of invalid input is rejected by validation before any DAO
call: the operation returns a validation failure, the store is unchanged, and
the list of DAO calls issued is empty. -/
theorem validation_rejects_before_dao (s : ChatStore) (now : Millis)
    (username msg other : String) (u : UserDTO) (msgId : Int)
    (hU : Validators.isNonZeroLengthString username = false ∨
      Validators.isAlnumString username = false)
    (hM : Validators.isNonZeroLengthString msg = false)
    (hI : Validators.isPositiveInteger msgId = false) :
    (∃ p, Controller.login s now username =
      (Except.error (ChatError.validationError p), s, [])) ∧
    (∃ p, Controller.isLoggedIn s now username =
      (Except.error (ChatError.validationError p), s, [])) ∧
    (∃ p, Controller.addMsg s msg (AuthorArg.user u) =
      (Except.error (ChatError.validationError p), s, [])) ∧
    (∃ p, Controller.addMsg s other AuthorArg.nonUser =
      (Except.error (ChatError.validationError p), s, [])) ∧
    (∃ p, Controller.findMsg s msgId =
      (Except.error (ChatError.validationError p), s, [])) ∧
    (∃ p, Controller.deleteMsg s msgId =
      (Except.error (ChatError.validationError p), s, [])) := by
  refine ⟨⟨"username", ?_⟩, ⟨"username", ?_⟩, ⟨"msg", ?_⟩, ?_,
    ⟨"msgId", ?_⟩, ⟨"msgId", ?_⟩⟩
  · rcases hU with h | h
    · simp [Controller.login, h]
    · by_cases hz : Validators.isNonZeroLengthString username <;>
        simp [Controller.login, h, hz]
  · rcases hU with h | h
    · simp [Controller.isLoggedIn, h]
    · by_cases hz : Validators.isNonZeroLengthString username <;>
        simp [Controller.isLoggedIn, h, hz]
  · simp [Controller.addMsg, hM]
  · by_cases hz : Validators.isNonZeroLengthString other
    · exact ⟨"user", by simp [Controller.addMsg, hz]⟩
    · exact ⟨"msg", by simp [Controller.addMsg, hz]⟩
  · simp [Controller.findMsg, hI]
  · simp [Controller.deleteMsg, hI]

/-- C5 witness. -/
theorem validation_rejects_before_dao_witness :
    (∃ p, Controller.login emptyStore 0 "bad name!" =
      (Except.error (ChatError.validationError p), emptyStore, [])) ∧
    (∃ p, Controller.isLoggedIn emptyStore 0 "bad name!" =
      (Except.error (ChatError.validationError p), emptyStore, [])) ∧
    (∃ p, Controller.addMsg emptyStore "" (AuthorArg.user (aliceAt none)) =
      (Except.error (ChatError.validationError p), emptyStore, [])) ∧
    (∃ p, Controller.addMsg emptyStore "x" AuthorArg.nonUser =
      (Except.error (ChatError.validationError p), emptyStore, [])) ∧
    (∃ p, Controller.findMsg emptyStore (-1) =
      (Except.error (ChatError.validationError p), emptyStore, [])) ∧
    (∃ p, Controller.deleteMsg emptyStore (-1) =
      (Except.error (ChatError.validationError p), emptyStore, [])) :=
  validation_rejects_before_dao emptyStore 0 "bad name!" "" "x"
    (aliceAt none) (-1) (Or.inr (by decide)) (by decide) (by decide)

/-- C6: on a well-formed store, adding a non-empty message and then looking up
the id of the returned message finds exactly that message, with the given body
and author. -/
theorem addMsg_then_findMsg (s : ChatStore) (msg : String) (u : UserDTO)
    (hwf : StoreWF s)
    (hmsg : Validators.isNonZeroLengthString msg = true) :
    ∃ m s' tr,
      Controller.addMsg s msg (AuthorArg.user u) = (Except.ok m, s', tr) ∧
      m.msg = msg ∧ m.author = u ∧
      (Controller.findMsg s' (m.id : Int)).1 = Except.ok (some m) := by
  obtain ⟨hpos, hlt⟩ := hwf
  refine ⟨⟨s.nextMsgId, msg, u⟩,
    { s with msgs := s.msgs ++ [⟨s.nextMsgId, msg, u⟩],
             nextMsgId := s.nextMsgId + 1 },
    [DAOCall.createMsg msg u], ?_, rfl, rfl, ?_⟩
  · simp [Controller.addMsg, hmsg, ChatDAO.createMsg]
  · have hval : Validators.isPositiveInteger ((s.nextMsgId : Nat) : Int) = true := by
      simp only [Validators.isPositiveInteger, decide_eq_true_eq]
      exact_mod_cast hpos
    have hnone :
        s.msgs.find? (fun m' => ((m'.id : Nat) : Int) == ((s.nextMsgId : Nat) : Int)) =
          none := by
      refine List.find?_eq_none.mpr ?_
      intro x hx
      have hxlt := hlt x hx
      simp only [beq_iff_eq, Int.natCast_inj]
      omega
    simp [Controller.findMsg, hval, ChatDAO.findMsgById, List.find?_append, hnone]

/-- C6 witness. -/
theorem addMsg_then_findMsg_witness :
    ∃ m s' tr,
      Controller.addMsg emptyStore "hello" (AuthorArg.user (aliceAt none)) =
        (Except.ok m, s', tr) ∧
      m.msg = "hello" ∧ m.author = aliceAt none ∧
      (Controller.findMsg s' (m.id : Int)).1 = Except.ok (some m) :=
  addMsg_then_findMsg emptyStore "hello" (aliceAt none) (by decide) (by decide)

/-- C7: deleting an id and then looking the same id up returns null, whether
or not a message with that id existed before the delete. -/
theorem deleteMsg_then_findMsg (s : ChatStore) (msgId : Int)
    (h : Validators.isPositiveInteger msgId = true) :
    ∃ s', Controller.deleteMsg s msgId =
        (Except.ok (), s', [DAOCall.deleteMsg msgId]) ∧
      (Controller.findMsg s' msgId).1 = Except.ok none := by
  refine ⟨ChatDAO.deleteMsg s msgId, ?_, ?_⟩
  · simp [Controller.deleteMsg, h]
  · have hnone :
        (ChatDAO.deleteMsg s msgId).msgs.find?
          (fun m => ((m.id : Nat) : Int) == msgId) = none := by
      refine List.find?_eq_none.mpr ?_
      intro x hx
      simp only [ChatDAO.deleteMsg, List.mem_filter, bne_iff_ne, ne_eq] at hx
      simpa using hx.2
    simp [Controller.findMsg, h, ChatDAO.findMsgById, hnone]

/-- C7 witness. -/
theorem deleteMsg_then_findMsg_witness :
    ∃ s', Controller.deleteMsg ⟨[], [⟨1, "hi", aliceAt none⟩], 2⟩ 1 =
        (Except.ok (), s', [DAOCall.deleteMsg 1]) ∧
      (Controller.findMsg s' 1).1 = Except.ok none :=
  deleteMsg_then_findMsg ⟨[], [⟨1, "hi", aliceAt none⟩], 2⟩ 1 (by decide)

/-- Each successful `addMsg` in a sequence appends exactly one message. -/
theorem addMsgs_msgs_length (L : List (String × UserDTO)) :
    ∀ s : ChatStore, (∀ p ∈ L, Validators.isNonZeroLengthString p.1 = true) →
      ((addMsgs s L).msgs).length = s.msgs.length + L.length := by
  induction L with
  | nil =>
    intro s _
    simp [addMsgs]
  | cons p rest ih =>
    intro s h
    have hp : Validators.isNonZeroLengthString p.1 = true :=
      h p (List.mem_cons_self p rest)
    have hrest : ∀ q ∈ rest, Validators.isNonZeroLengthString q.1 = true :=
      fun q hq => h q (List.mem_cons_of_mem p hq)
    show ((addMsgs (Controller.addMsg s p.1 (AuthorArg.user p.2)).2.1 rest).msgs).length =
      s.msgs.length + (p :: rest).length
    rw [ih _ hrest]
    simp [Controller.addMsg, hp, ChatDAO.createMsg]
    omega

/-- C8: `findAllMsgs` on the empty store returns the empty collection, and
after a sequence of N successful `addMsg` calls on the initially empty store
(and no deletions) it returns exactly N messages. -/
theorem findAllMsgs_counts (L : List (String × UserDTO))
    (hL : ∀ p ∈ L, Validators.isNonZeroLengthString p.1 = true) :
    (Controller.findAllMsgs emptyStore).1 = Except.ok [] ∧
    ∃ ms, (Controller.findAllMsgs (addMsgs emptyStore L)).1 = Except.ok ms ∧
      ms.length = L.length := by
  refine ⟨rfl, (addMsgs emptyStore L).msgs, rfl, ?_⟩
  have hlen := addMsgs_msgs_length L emptyStore hL
  simpa [emptyStore] using hlen

/-- C8 witness. -/
theorem findAllMsgs_counts_witness :
    (Controller.findAllMsgs emptyStore).1 = Except.ok [] ∧
    ∃ ms, (Controller.findAllMsgs
        (addMsgs emptyStore [("a", aliceAt none), ("b", aliceAt none)])).1 =
        Except.ok ms ∧
      ms.length = ([("a", aliceAt none), ("b", aliceAt none)] :
        List (String × UserDTO)).length :=
  findAllMsgs_counts [("a", aliceAt none), ("b", aliceAt none)] (by decide)
